import Mathlib

/-!
Verification of the diagnostic enrichment engine of ex_jsonschema
(src/native/ex_jsonschema/src/lib.rs).

The engine is embedded shallowly: JSON values become the inductive
`Value`; the external validation engine (schema compilation, `is_valid`,
`iter_errors`) and the external JSON text parser are out of scope per the
design and are modelled as function-valued inputs; every in-scope Rust
function (`get_value_at_path`, `extract_keyword_from_error`,
`get_schema_constraint_value`, `build_error_context`,
`extract_annotations_from_error`, `generate_suggestions_for_error`,
`CompiledSchema::validate_verbose`, the `valid` NIF) is translated into a
total Lean function of the same name.

Conventions of the embedding:
* serde_json numbers are modelled as `Int` (the claims under scrutiny
  never involve floating point values);
* Rust `String::len` is the UTF-8 byte length, modelled as
  `String.utf8ByteSize`;
* `HashMap<String, Value>` is modelled as an association list where
  `ctxInsert` replaces any previous binding, so `List.lookup` observes the
  latest insertion exactly as `HashMap::insert`/`get` do;
* `Result<(), E>` becomes `Except E Unit`.
-/

namespace ExJsonschema

/-- JSON values, mirroring serde_json `Value` (numbers restricted to
integers, which covers every value the verified claims touch). -/
inductive Value where
  | null : Value
  | bool : Bool → Value
  | num : Int → Value
  | str : String → Value
  | arr : List Value → Value
  | obj : List (String × Value) → Value
deriving Repr

/-- One raw structural validation failure as produced by the external
validation engine: the fields of Rust `ValidationErrorDetail`, which are
also exactly the pieces of `jsonschema::ValidationError` that the
enrichment code reads (`instance_path`, `schema_path`, and the `Display`
rendering `error.to_string()` stored here as `message`). -/
structure RawFailure where
  instance_path : String
  schema_path : String
  message : String

/-- Lookup by string key on a JSON value: serde_json `Value::get` with a
string index returns the member of an object and `None` on every other
variant. -/
def Value.get (v : Value) (key : String) : Option Value :=
  match v with
  | .obj fields => fields.lookup key
  | _ => none

/-- Hex digit for JSON string escapes (lower case, as serde_json emits). -/
def hexDigit (n : Nat) : Char :=
  if n < 10 then Char.ofNat (48 + n) else Char.ofNat (97 + (n - 10))

/-- Escape one character the way serde_json `Display` escapes string
contents: quote, backslash, and the named control escapes, with remaining
control characters rendered as a \u00XX sequence. -/
def jsonEscapeChar (c : Char) : String :=
  if c = Char.ofNat 34 then "\\\""
  else if c = Char.ofNat 92 then "\\\\"
  else if c = Char.ofNat 8 then "\\b"
  else if c = Char.ofNat 12 then "\\f"
  else if c = Char.ofNat 10 then "\\n"
  else if c = Char.ofNat 13 then "\\r"
  else if c = Char.ofNat 9 then "\\t"
  else if c.toNat < 32 then
    "\\u00" ++ String.singleton (hexDigit (c.toNat / 16))
      ++ String.singleton (hexDigit (c.toNat % 16))
  else String.singleton c

/-- Render a string as a JSON string literal (quotes plus escaped body). -/
def jsonEscapeString (s : String) : String :=
  "\"" ++ String.join (s.data.map jsonEscapeChar) ++ "\""

mutual

/-- Compact JSON rendering of a value: the behaviour of serde_json
`Display for Value`, which is what every Rust format string interpolating
a `Value` produces. -/
def valueToJson : Value → String
  | .null => "null"
  | .bool b => if b then "true" else "false"
  | .num n => toString n
  | .str s => jsonEscapeString s
  | .arr xs => "[" ++ arrayToJson xs ++ "]"
  | .obj fs => "\x7b" ++ objToJson fs ++ "\x7d"

/-- Comma-separated rendering of array elements. -/
def arrayToJson : List Value → String
  | [] => ""
  | [x] => valueToJson x
  | x :: y :: xs => valueToJson x ++ "," ++ arrayToJson (y :: xs)

/-- Comma-separated rendering of object members. -/
def objToJson : List (String × Value) → String
  | [] => ""
  | [(k, v)] => jsonEscapeString k ++ ":" ++ valueToJson v
  | (k, v) :: f :: fs =>
      jsonEscapeString k ++ ":" ++ valueToJson v ++ "," ++ objToJson (f :: fs)

end

/-- Splitting on the slash character, one accumulator pass over the
characters: the behaviour of Rust `str::split(\x27/\x27)` collected into
a list (on every input it yields at least one piece, the empty string
included). -/
def split_slash_aux : List Char → List Char → List String
  | [], acc => [⟨acc.reverse⟩]
  | c :: cs, acc =>
    if c = '/' then ⟨acc.reverse⟩ :: split_slash_aux cs []
    else split_slash_aux cs (c :: acc)

/-- String-level wrapper of `split_slash_aux`. -/
def split_slash (s : String) : List String :=
  split_slash_aux s.data []

/-- Rust `segment.parse::<usize>()`: an optional leading plus sign
followed by at least one ASCII decimal digit, no other characters, and
the resulting value must fit in the machine word (64-bit here); anything
else is a parse failure. -/
def parse_usize (s : String) : Option Nat :=
  let digits :=
    match s.data with
    | '+' :: rest => rest
    | chars => chars
  if digits.isEmpty then none
  else if digits.all (fun c => c.isDigit) then
    let n := digits.foldl (fun acc c => acc * 10 + (c.toNat - 48)) 0
    if n ≤ 2 ^ 64 - 1 then some n else none
  else none

/-- Leading-slash trimming on the character list underlying a string:
Rust `path.trim_start_matches(\x27/\x27)`, which removes every leading
occurrence of the pattern. -/
def trim_slashes : List Char → List Char
  | [] => []
  | c :: cs => if c = '/' then trim_slashes cs else c :: cs

/-- String-level wrapper of `trim_slashes`. -/
def trim_start_matches_slash (s : String) : String :=
  ⟨trim_slashes s.data⟩

/-- Segment-consumption loop of `get_value_at_path`: descend through one
segment at a time, failing (`none`) on a missing object key, a
non-numeric or out-of-range array index, or any attempt to descend into a
scalar. -/
def resolve_segments : Value → List String → Option Value
  | current, [] => some current
  | current, segment :: rest =>
    match current with
    | .obj fields =>
      match fields.lookup segment with
      | some next => resolve_segments next rest
      | none => none
    | .arr xs =>
      match parse_usize segment with
      | some index =>
        match xs.get? index with
        | some next => resolve_segments next rest
        | none => none
      | none => none
    | _ => none

/-- Rust `get_value_at_path`: empty path or "/" resolves to the root;
otherwise all leading slashes are trimmed, the remainder is split on
slash, and the segments are consumed left to right. -/
def get_value_at_path (value : Value) (path : String) : Option Value :=
  if path = "" ∨ path = "/" then some value
  else resolve_segments value (split_slash (trim_start_matches_slash path))

/-- Rust `extract_keyword_from_error`: take the final slash-delimited
segment of the schema path; recognized keywords map to themselves, any
other segment is returned verbatim, and the (in fact unreachable) case of
`split` yielding no segment at all maps to "unknown". -/
def extract_keyword_from_error (error : RawFailure) : String :=
  let schema_path := error.schema_path
  match (split_slash schema_path).getLast? with
  | some last_segment =>
    match last_segment with
    | "type" => "type"
    | "minimum" => "minimum"
    | "maximum" => "maximum"
    | "minLength" => "minLength"
    | "maxLength" => "maxLength"
    | "pattern" => "pattern"
    | "format" => "format"
    | "required" => "required"
    | "minItems" => "minItems"
    | "maxItems" => "maxItems"
    | "enum" => "enum"
    | "const" => "const"
    | "uniqueItems" => "uniqueItems"
    | "multipleOf" => "multipleOf"
    | _ => last_segment
  | none => "unknown"

/-- Characters strictly before the last slash of the list, or `none`
when no slash occurs. -/
def before_last_slash : List Char → Option (List Char)
  | [] => none
  | c :: cs =>
    match before_last_slash cs with
    | some rest => some (c :: rest)
    | none => if c = '/' then some [] else none

/-- Rust `schema_path.rsplitn(2, \x27/\x27).nth(1).unwrap_or("")`: the
portion of the path before its last slash, or the empty string when the
path contains no slash at all. -/
def rsplit_parent (p : String) : String :=
  match before_last_slash p.data with
  | some cs => ⟨cs⟩
  | none => ""

/-- Rust `get_schema_constraint_value`: resolve the failure schema path;
when it resolves, direct-constraint keywords return the resolved node,
the keywords type/pattern/required look the named property up on the
parent node (with keyword-specific fallback sentinels), and any other
keyword gets a "constraint: NAME" placeholder; when the schema path does
not resolve at all, the generic sentinel "unknown constraint" is
returned. -/
def get_schema_constraint_value (error : RawFailure) (schema : Value) : Value :=
  let schema_path := error.schema_path
  let keyword := extract_keyword_from_error error
  match get_value_at_path schema schema_path with
  | some schema_location =>
    match keyword with
    | "minimum" | "maximum" | "minLength" | "maxLength" | "minItems"
    | "maxItems" | "const" | "enum" | "multipleOf" =>
      schema_location
    | "type" =>
      let parent_path := rsplit_parent schema_path
      match get_value_at_path schema parent_path with
      | some parent =>
        match parent.get "type" with
        | some type_val => type_val
        | none => Value.str "unknown"
      | none => Value.str "unknown"
    | "pattern" =>
      let parent_path := rsplit_parent schema_path
      match get_value_at_path schema parent_path with
      | some parent =>
        match parent.get "pattern" with
        | some pattern_val => pattern_val
        | none => Value.str "unknown pattern"
      | none => Value.str "unknown pattern"
    | "required" =>
      let parent_path := rsplit_parent schema_path
      match get_value_at_path schema parent_path with
      | some parent =>
        match parent.get "required" with
        | some required_val => required_val
        | none => Value.arr []
      | none => Value.arr []
    | _ => Value.str ("constraint: " ++ keyword)
  | none => Value.str "unknown constraint"

/-- Insertion into the association-list model of
`HashMap<String, Value>`: the new binding shadows (replaces) any previous
binding of the same key, exactly like `HashMap::insert`. -/
def ctxInsert (m : List (String × Value)) (k : String) (v : Value) :
    List (String × Value) :=
  (k, v) :: m.filter (fun p => !(p.1 == k))

/-- Rust `build_error_context`: the raw path echoes plus the per-keyword
"expected vs actual" facts, with a generic fallback branch for every
unrecognized keyword. Rust `String::len` (UTF-8 byte count) is rendered
as `String.utf8ByteSize`. -/
def build_error_context (error : RawFailure) (instance_value : Value)
    (schema_value : Value) (keyword : String) : List (String × Value) :=
  let context : List (String × Value) := []
  let context := ctxInsert context "instance_path" (Value.str error.instance_path)
  let context := ctxInsert context "schema_path" (Value.str error.schema_path)
  match keyword with
  | "type" =>
    let context := ctxInsert context "expected_type" schema_value
    let context := ctxInsert context "actual_type" (Value.str
      (match instance_value with
       | Value.str _ => "string"
       | Value.num _ => "number"
       | Value.bool _ => "boolean"
       | Value.arr _ => "array"
       | Value.obj _ => "object"
       | Value.null => "null"))
    let context := ctxInsert context "expected"
      (Value.str ("type: " ++ valueToJson schema_value))
    ctxInsert context "actual" instance_value
  | "minimum" =>
    let context := ctxInsert context "minimum_value" schema_value
    let context := ctxInsert context "actual_value" instance_value
    let context := ctxInsert context "expected"
      (Value.str ("value >= " ++ valueToJson schema_value))
    ctxInsert context "actual" instance_value
  | "maximum" =>
    let context := ctxInsert context "maximum_value" schema_value
    let context := ctxInsert context "actual_value" instance_value
    let context := ctxInsert context "expected"
      (Value.str ("value <= " ++ valueToJson schema_value))
    ctxInsert context "actual" instance_value
  | "minLength" =>
    let actual_length :=
      match instance_value with
      | Value.str s => s.utf8ByteSize
      | _ => 0
    let context := ctxInsert context "minimum_length" schema_value
    let context := ctxInsert context "actual_length" (Value.num (Int.ofNat actual_length))
    let context := ctxInsert context "expected"
      (Value.str ("length >= " ++ valueToJson schema_value))
    ctxInsert context "actual" (Value.str ("length: " ++ toString actual_length))
  | "maxLength" =>
    let actual_length :=
      match instance_value with
      | Value.str s => s.utf8ByteSize
      | _ => 0
    let context := ctxInsert context "maximum_length" schema_value
    let context := ctxInsert context "actual_length" (Value.num (Int.ofNat actual_length))
    let context := ctxInsert context "expected"
      (Value.str ("length <= " ++ valueToJson schema_value))
    ctxInsert context "actual" (Value.str ("length: " ++ toString actual_length))
  | "pattern" =>
    let context := ctxInsert context "pattern" schema_value
    let context := ctxInsert context "value" instance_value
    let context := ctxInsert context "expected"
      (Value.str ("match pattern: " ++ valueToJson schema_value))
    ctxInsert context "actual" instance_value
  | "required" =>
    let context := ctxInsert context "required_properties" schema_value
    let context := ctxInsert context "expected"
      (Value.str "all required properties present")
    ctxInsert context "actual" (Value.str "missing required property")
  | "minItems" | "maxItems" =>
    let actual_length :=
      match instance_value with
      | Value.arr xs => xs.length
      | _ => 0
    let context := ctxInsert context
      ((if keyword = "minItems" then "minimum" else "maximum") ++ "_items")
      schema_value
    let context := ctxInsert context "actual_items" (Value.num (Int.ofNat actual_length))
    let op := if keyword = "minItems" then ">=" else "<="
    let context := ctxInsert context "expected"
      (Value.str ("items " ++ op ++ " " ++ valueToJson schema_value))
    ctxInsert context "actual" instance_value
  | _ =>
    let context := ctxInsert context "constraint" schema_value
    let context := ctxInsert context "expected" (Value.str "constraint satisfied")
    ctxInsert context "actual" instance_value

/-- Rust `extract_annotations_from_error`: copy
title/description/examples/default from the resolved schema node when it
is an object, copy title/description from the parent node under a
parent_ prefix when the parent path is nonempty and resolves to an
object, and always record the classified keyword and raw instance
path. -/
def extract_annotations_from_error (error : RawFailure) (schema : Value) :
    List (String × Value) :=
  let anns : List (String × Value) := []
  let schema_path := error.schema_path
  let anns :=
    match get_value_at_path schema schema_path with
    | some (Value.obj schema_obj) =>
      let anns :=
        match schema_obj.lookup "title" with
        | some title => ctxInsert anns "title" title
        | none => anns
      let anns :=
        match schema_obj.lookup "description" with
        | some description => ctxInsert anns "description" description
        | none => anns
      let anns :=
        match schema_obj.lookup "examples" with
        | some examples => ctxInsert anns "examples" examples
        | none => anns
      match schema_obj.lookup "default" with
      | some dflt => ctxInsert anns "default" dflt
      | none => anns
    | _ => anns
  let parent_path := rsplit_parent schema_path
  let anns :=
    if parent_path ≠ "" then
      match get_value_at_path schema parent_path with
      | some (Value.obj parent_obj) =>
        let anns :=
          match parent_obj.lookup "title" with
          | some parent_title => ctxInsert anns "parent_title" parent_title
          | none => anns
        match parent_obj.lookup "description" with
        | some parent_description =>
          ctxInsert anns "parent_description" parent_description
        | none => anns
      | _ => anns
    else anns
  let anns := ctxInsert anns "error_keyword"
    (Value.str (extract_keyword_from_error error))
  ctxInsert anns "validation_failed_at" (Value.str error.instance_path)

/-- Rust `generate_suggestions_for_error`: one templated hint per
recognized keyword (the format keyword inspecting the raw message for the
substring "email"), and for every other keyword a fixed bundle of four
lines plus, when the raw message is nonempty and shorter than 200 UTF-8
bytes, a fifth line echoing it. -/
def generate_suggestions_for_error (error : RawFailure) (keyword : String)
    (_instance_value : Value) (schema_value : Value) : List String :=
  match keyword with
  | "type" =>
    let expected :=
      match schema_value with
      | Value.str s => s
      | _ => "unknown"
    ["Expected type: " ++ expected]
  | "minimum" => ["Value must be >= " ++ valueToJson schema_value]
  | "maximum" => ["Value must be <= " ++ valueToJson schema_value]
  | "minLength" =>
    ["String must be at least " ++ valueToJson schema_value ++ " characters"]
  | "maxLength" =>
    ["String must be at most " ++ valueToJson schema_value ++ " characters"]
  | "pattern" => ["String must match pattern: " ++ valueToJson schema_value]
  | "format" =>
    let message := error.message
    if message.containsSubstr "email" then
      ["Use valid email format: user@domain.com"]
    else
      ["Check the format requirements"]
  | "required" => ["Add the missing required property"]
  | "minItems" =>
    ["Array must have at least " ++ valueToJson schema_value ++ " items"]
  | "maxItems" =>
    ["Array must have at most " ++ valueToJson schema_value ++ " items"]
  | "enum" => ["Value must be one of: " ++ valueToJson schema_value]
  | "const" => ["Value must be exactly: " ++ valueToJson schema_value]
  | "uniqueItems" => ["Array items must be unique"]
  | "multipleOf" => ["Value must be a multiple of " ++ valueToJson schema_value]
  | _ =>
    let suggestions :=
      ["Validation failed for \x27" ++ keyword ++ "\x27 constraint",
       "Expected: " ++ valueToJson schema_value]
    let suggestions := suggestions ++ ["Check the schema documentation for this constraint"]
    let suggestions := suggestions ++ ["Verify your data matches the expected format"]
    let message := error.message
    if message ≠ "" ∧ message.utf8ByteSize < 200 then
      suggestions ++ ["Error details: " ++ message]
    else
      suggestions

/-- Rust `extract_values_from_error`: the instance value at the failure
instance path (degrading to null when unresolvable) paired with the
extracted schema constraint value. -/
def extract_values_from_error (error : RawFailure) (inst : Value)
    (schema : Value) : Value × Value :=
  let instance_value := (get_value_at_path inst error.instance_path).getD Value.null
  let schema_value := get_schema_constraint_value error schema
  (instance_value, schema_value)

/-- Rust `VerboseValidationErrorDetail`: the fully enriched failure
record returned by the verbose validation path. -/
structure VerboseValidationErrorDetail where
  instance_path : String
  schema_path : String
  message : String
  keyword : String
  instance_value : Value
  schema_value : Value
  context : List (String × Value)
  annotations : List (String × Value)
  suggestions : List String

/-- Rust `CompiledSchema`: the external `jsonschema::Validator` is out of
scope and appears through its two capabilities (`is_valid` and
`iter_errors`, the latter modelled as the raw failure list it yields),
together with the retained copy of the schema document. -/
structure CompiledSchema where
  validator_is_valid : Value → Bool
  validator_iter_errors : Value → List RawFailure
  schema : Value

/-- Body of the per-failure closure inside
`CompiledSchema::validate_verbose`: classification, value extraction,
context, annotations and suggestions assembled into one record. -/
def enrich_error (schema : Value) (inst : Value) (error : RawFailure) :
    VerboseValidationErrorDetail :=
  let keyword := extract_keyword_from_error error
  let values := extract_values_from_error error inst schema
  let instance_value := values.1
  let schema_value := values.2
  let context := build_error_context error instance_value schema_value keyword
  let annotations := extract_annotations_from_error error schema
  let suggestions := generate_suggestions_for_error error keyword instance_value schema_value
  ⟨error.instance_path, error.schema_path, error.message, keyword,
   instance_value, schema_value, context, annotations, suggestions⟩

/-- Rust `CompiledSchema::is_valid`: delegate to the external validator. -/
def CompiledSchema.is_valid (self : CompiledSchema) (inst : Value) : Bool :=
  self.validator_is_valid inst

/-- Rust `CompiledSchema::validate_verbose`: Ok when the validator
accepts, otherwise one enriched record per raw failure the validator
reports. -/
def CompiledSchema.validate_verbose (self : CompiledSchema) (inst : Value) :
    Except (List VerboseValidationErrorDetail) Unit :=
  if self.validator_is_valid inst then Except.ok ()
  else Except.error ((self.validator_iter_errors inst).map (enrich_error self.schema inst))

/-- Rust NIF `valid`: parse the instance text with the external JSON
parser (modelled as a function-valued input), fall back to the JSON null
value when parsing fails, and return the boolean verdict of the compiled
schema. -/
def valid (compiled_schema : CompiledSchema) (parse : String → Option Value)
    (instance_json : String) : Bool :=
  let instance_value := (parse instance_json).getD Value.null
  compiled_schema.is_valid instance_value

/-- Removal of exactly one leading slash when one is present. -/
def strip_one_leading_slash (s : String) : String :=
  match s.data with
  | '/' :: rest => ⟨rest⟩
  | _ => s

/-- Follows the spec words, for comparison with the source behaviour: a
pointer resolver that strips exactly one leading slash before splitting,
as the specification describes the segment computation. -/
def get_value_at_path_one_strip (value : Value) (path : String) : Option Value :=
  if path = "" ∨ path = "/" then some value
  else resolve_segments value (split_slash (strip_one_leading_slash path))

/-- Keywords with a dedicated branch in `generate_suggestions_for_error`. -/
def recognized_suggestion_keywords : List String :=
  ["type", "minimum", "maximum", "minLength", "maxLength", "pattern", "format",
   "required", "minItems", "maxItems", "enum", "const", "uniqueItems", "multipleOf"]

/-- Validator stub for witnesses: accepts exactly the JSON null value. -/
def constNullSchema : CompiledSchema :=
  ⟨fun v => match v with | Value.null => true | _ => false, fun _ => [], Value.null⟩

/-- Compiled-schema stub for witnesses: always invalid, reporting one raw
minLength failure against a retained schema document. -/
def failingSchema : CompiledSchema :=
  ⟨fun _ => false,
   fun _ => [⟨"/name", "/properties/name/minLength", "too short"⟩],
   Value.obj [("properties", Value.obj [("name", Value.obj [("minLength", Value.num 2)])])]⟩

/-- Schema document for the constraint-extractor witness. -/
def typeSchemaW : Value := Value.obj [("type", Value.str "string")]

/-! Helper lemmas shared by several of the claim theorems. -/

theorem utf8ByteSize_go_ge (cs : List Char) :
    cs.length ≤ String.utf8ByteSize.go cs := by
  induction cs with
  | nil => simp [String.utf8ByteSize.go]
  | cons c cs ih =>
    have hc : 0 < c.utf8Size := c.utf8Size_pos
    simp only [List.length_cons, String.utf8ByteSize.go]
    omega

theorem length_le_utf8ByteSize (s : String) : s.length ≤ s.utf8ByteSize := by
  cases s with
  | mk data => exact utf8ByteSize_go_ge data

theorem trim_slashes_cons_slash (cs : List Char) :
    trim_slashes ('/' :: cs) = trim_slashes cs := by
  simp [trim_slashes]

theorem build_error_context_has_expected_and_actual
    (error : RawFailure) (instance_value schema_value : Value) (keyword : String) :
    ((build_error_context error instance_value schema_value keyword).lookup "expected").isSome = true
    ∧ ((build_error_context error instance_value schema_value keyword).lookup "actual").isSome = true := by
  unfold build_error_context
  split <;> exact ⟨rfl, rfl⟩

theorem generate_suggestions_for_error_ne_nil
    (error : RawFailure) (keyword : String) (iv sv : Value) :
    generate_suggestions_for_error error keyword iv sv ≠ [] := by
  unfold generate_suggestions_for_error
  split <;> intro h <;> (try dsimp only [] at h) <;> (try split at h) <;> simp_all

/-! Claim theorems. -/

/-- C1: whenever the external validator rejects an instance, the verbose
validation path returns exactly one enriched record per raw failure
(a total map over the raw failure list, so enrichment never raises), and
every record is complete: it echoes the raw fields, carries the
classified keyword, a context containing expected and actual entries,
and a nonempty suggestion list. -/
theorem validate_verbose_enriches_every_raw_failure
    (cs : CompiledSchema) (inst : Value)
    (h : cs.validator_is_valid inst = false) :
    cs.validate_verbose inst
      = Except.error ((cs.validator_iter_errors inst).map (enrich_error cs.schema inst))
    ∧ ((cs.validator_iter_errors inst).map (enrich_error cs.schema inst)).length
        = (cs.validator_iter_errors inst).length
    ∧ ∀ error ∈ cs.validator_iter_errors inst,
        (enrich_error cs.schema inst error).instance_path = error.instance_path
        ∧ (enrich_error cs.schema inst error).schema_path = error.schema_path
        ∧ (enrich_error cs.schema inst error).message = error.message
        ∧ (enrich_error cs.schema inst error).keyword = extract_keyword_from_error error
        ∧ ((enrich_error cs.schema inst error).context.lookup "expected").isSome = true
        ∧ ((enrich_error cs.schema inst error).context.lookup "actual").isSome = true
        ∧ (enrich_error cs.schema inst error).suggestions ≠ [] := by
  refine ⟨?_, by simp, ?_⟩
  · simp [CompiledSchema.validate_verbose, h]
  · intro error _
    refine ⟨rfl, rfl, rfl, rfl, ?_, ?_, ?_⟩
    · exact (build_error_context_has_expected_and_actual error
        (extract_values_from_error error inst cs.schema).1
        (extract_values_from_error error inst cs.schema).2
        (extract_keyword_from_error error)).1
    · exact (build_error_context_has_expected_and_actual error
        (extract_values_from_error error inst cs.schema).1
        (extract_values_from_error error inst cs.schema).2
        (extract_keyword_from_error error)).2
    · exact generate_suggestions_for_error_ne_nil error
        (extract_keyword_from_error error)
        (extract_values_from_error error inst cs.schema).1
        (extract_values_from_error error inst cs.schema).2

/-- Witness for C1 at a concrete always-failing compiled schema. -/
theorem validate_verbose_enriches_witness :
    CompiledSchema.validate_verbose failingSchema (Value.obj [("name", Value.str "A")])
      = Except.error
          ((failingSchema.validator_iter_errors (Value.obj [("name", Value.str "A")])).map
            (enrich_error failingSchema.schema (Value.obj [("name", Value.str "A")]))) :=
  (validate_verbose_enriches_every_raw_failure failingSchema
    (Value.obj [("name", Value.str "A")]) rfl).1

/-- C2: for every keyword string (recognized or not) and every pair of
instance value and schema value, the context map returned by
`build_error_context` contains both an expected entry and an actual
entry. -/
theorem context_always_contains_expected_and_actual
    (error : RawFailure) (instance_value schema_value : Value) (keyword : String) :
    ((build_error_context error instance_value schema_value keyword).lookup "expected").isSome = true
    ∧ ((build_error_context error instance_value schema_value keyword).lookup "actual").isSome = true :=
  build_error_context_has_expected_and_actual error instance_value schema_value keyword

/-- C3 counterexample: on the empty schema path the classifier returns
the empty string, not the literal "unknown" the claim promises, because
splitting the empty string still yields one (empty) segment and the
"unknown" branch is unreachable. -/
theorem classifier_empty_path_counterexample :
    extract_keyword_from_error ⟨"", "", ""⟩ = ""
    ∧ extract_keyword_from_error ⟨"", "", ""⟩ ≠ "unknown" := by
  exact ⟨rfl, by decide⟩

/-- C3 amended: the classifier maps recognized keywords to themselves and
returns the final slash-delimited segment of the schema path verbatim
whenever splitting yields a last segment (which it always does, the empty
string included); in particular the empty schema path is classified as
the empty string rather than "unknown". -/
theorem classifier_returns_last_segment_verbatim :
    (∀ (error : RawFailure) (segment : String),
        (split_slash error.schema_path).getLast? = some segment →
        extract_keyword_from_error error = segment)
    ∧ extract_keyword_from_error ⟨"", "", ""⟩ = "" := by
  constructor
  · intro error segment h
    simp only [extract_keyword_from_error]
    rw [h]
    split <;> (try split) <;> simp_all
  · rfl

/-- Witness for C3: a schema path whose last segment is an unrecognized
keyword is classified verbatim. -/
theorem classifier_returns_last_segment_witness :
    extract_keyword_from_error ⟨"", "/a/customKeyword", ""⟩ = "customKeyword" :=
  classifier_returns_last_segment_verbatim.1 ⟨"", "/a/customKeyword", ""⟩
    "customKeyword" rfl

/-- C4 counterexample: for a type failure whose schema path does not
resolve, the extractor returns the generic sentinel "unknown constraint"
even though the parent (the schema root) resolves and merely lacks the
property, where the claim promises the keyword-specific sentinel
"unknown". -/
theorem constraint_unresolved_type_counterexample :
    get_schema_constraint_value ⟨"", "/type", ""⟩ (Value.obj []) = Value.str "unknown constraint"
    ∧ get_value_at_path (Value.obj []) (rsplit_parent "/type") = some (Value.obj [])
    ∧ (Value.obj []).get "type" = none
    ∧ Value.str "unknown constraint" ≠ Value.str "unknown" := by
  refine ⟨rfl, rfl, rfl, ?_⟩
  intro hc
  injection hc with hs
  exact absurd hs (by decide)

/-- C4 amended: the parent-path fallback applies only when the failure
schema path itself resolves: in that case, for the keywords type, pattern
and required the extractor resolves the parent (last segment stripped)
and reads the named property, degrading to the keyword-specific sentinel
(the string "unknown", the string "unknown pattern", or the empty array);
when the schema path does not resolve, every keyword gets the generic
sentinel "unknown constraint" instead. -/
theorem constraint_parent_lookup_behaviour :
    (∀ (error : RawFailure) (schema : Value),
        get_value_at_path schema error.schema_path = none →
        get_schema_constraint_value error schema = Value.str "unknown constraint")
    ∧ (∀ (error : RawFailure) (schema : Value) (loc : Value),
        get_value_at_path schema error.schema_path = some loc →
        (extract_keyword_from_error error = "type" →
          get_schema_constraint_value error schema
            = (match get_value_at_path schema (rsplit_parent error.schema_path) with
               | some parent =>
                 (match parent.get "type" with
                  | some type_val => type_val
                  | none => Value.str "unknown")
               | none => Value.str "unknown"))
        ∧ (extract_keyword_from_error error = "pattern" →
          get_schema_constraint_value error schema
            = (match get_value_at_path schema (rsplit_parent error.schema_path) with
               | some parent =>
                 (match parent.get "pattern" with
                  | some pattern_val => pattern_val
                  | none => Value.str "unknown pattern")
               | none => Value.str "unknown pattern"))
        ∧ (extract_keyword_from_error error = "required" →
          get_schema_constraint_value error schema
            = (match get_value_at_path schema (rsplit_parent error.schema_path) with
               | some parent =>
                 (match parent.get "required" with
                  | some required_val => required_val
                  | none => Value.arr [])
               | none => Value.arr []))) := by
  constructor
  · intro error schema h
    simp only [get_schema_constraint_value]
    rw [h]
  · intro error schema loc h
    refine ⟨?_, ?_, ?_⟩ <;> intro hkw <;>
      simp only [get_schema_constraint_value] <;> rw [h, hkw] <;> rfl

/-- Witness for C4 at concrete schemas: an unresolvable schema path
yields the generic sentinel, and a resolvable type failure takes the
parent-property branch. -/
theorem constraint_parent_lookup_witness :
    get_schema_constraint_value ⟨"", "/nope", ""⟩ (Value.obj []) = Value.str "unknown constraint"
    ∧ get_schema_constraint_value ⟨"", "/type", ""⟩ typeSchemaW
        = (match get_value_at_path typeSchemaW (rsplit_parent "/type") with
           | some parent =>
             (match parent.get "type" with
              | some type_val => type_val
              | none => Value.str "unknown")
           | none => Value.str "unknown") :=
  ⟨constraint_parent_lookup_behaviour.1 ⟨"", "/nope", ""⟩ (Value.obj []) rfl,
   (constraint_parent_lookup_behaviour.2 ⟨"", "/type", ""⟩ typeSchemaW
     (Value.str "string") rfl).1 rfl⟩

/-- C5 counterexample: for a one-character two-byte string the context
builder records actual_length 2 (the UTF-8 byte count that Rust
`String::len` yields), not the character count 1 the claim states. -/
theorem actual_length_counts_bytes_counterexample :
    ((build_error_context ⟨"", "", ""⟩ (Value.str "é") (Value.num 2) "minLength").lookup
        "actual_length") = some (Value.num 2)
    ∧ ("é" : String).length = 1
    ∧ some (Value.num 2) ≠ some (Value.num 1) := by
  refine ⟨rfl, rfl, ?_⟩
  intro hc
  injection hc with hv
  injection hv with hn
  exact absurd hn (by decide)

/-- C5 amended: the actual_length entry for minLength and maxLength
failures equals the UTF-8 byte length of the instance string (which
coincides with the character count exactly on ASCII strings), and equals
0 whenever the instance value is not a string. -/
theorem actual_length_utf8_bytes :
    (∀ (error : RawFailure) (schema_value : Value) (s : String),
        ((build_error_context error (Value.str s) schema_value "minLength").lookup "actual_length")
          = some (Value.num (Int.ofNat s.utf8ByteSize))
        ∧ ((build_error_context error (Value.str s) schema_value "maxLength").lookup "actual_length")
          = some (Value.num (Int.ofNat s.utf8ByteSize)))
    ∧ (∀ (error : RawFailure) (schema_value instance_value : Value),
        (∀ s, instance_value ≠ Value.str s) →
        ((build_error_context error instance_value schema_value "minLength").lookup "actual_length")
          = some (Value.num 0)
        ∧ ((build_error_context error instance_value schema_value "maxLength").lookup "actual_length")
          = some (Value.num 0)) := by
  constructor
  · intro error schema_value s
    exact ⟨rfl, rfl⟩
  · intro error schema_value instance_value h
    cases instance_value with
    | str s => exact absurd rfl (h s)
    | null => exact ⟨rfl, rfl⟩
    | bool b => exact ⟨rfl, rfl⟩
    | num n => exact ⟨rfl, rfl⟩
    | arr xs => exact ⟨rfl, rfl⟩
    | obj fs => exact ⟨rfl, rfl⟩

/-- Witness for C5 at a non-string instance value. -/
theorem actual_length_utf8_bytes_witness :
    ((build_error_context ⟨"", "", ""⟩ Value.null Value.null "minLength").lookup "actual_length")
      = some (Value.num 0) :=
  (actual_length_utf8_bytes.2 ⟨"", "", ""⟩ Value.null Value.null
    (fun s => by simp)).1

/-- C6: the pointer resolver returns the root for the empty path or "/";
otherwise it consumes the computed segments left to right, failing
immediately on a missing object key, failing at an array node unless the
segment parses as an in-range index, and failing when segments remain at
a scalar node. -/
theorem resolver_pointer_behaviour :
    (∀ v : Value, get_value_at_path v "" = some v ∧ get_value_at_path v "/" = some v)
    ∧ (∀ (v : Value) (path : String), path ≠ "" → path ≠ "/" →
        get_value_at_path v path
          = resolve_segments v (split_slash (trim_start_matches_slash path)))
    ∧ (∀ (fields : List (String × Value)) (segment : String) (rest : List String),
        fields.lookup segment = none →
        resolve_segments (Value.obj fields) (segment :: rest) = none)
    ∧ (∀ (xs : List Value) (segment : String) (rest : List String),
        parse_usize segment = none →
        resolve_segments (Value.arr xs) (segment :: rest) = none)
    ∧ (∀ (xs : List Value) (segment : String) (rest : List String) (index : Nat),
        parse_usize segment = some index → xs.length ≤ index →
        resolve_segments (Value.arr xs) (segment :: rest) = none)
    ∧ (∀ (segment : String) (rest : List String),
        resolve_segments Value.null (segment :: rest) = none
        ∧ (∀ b, resolve_segments (Value.bool b) (segment :: rest) = none)
        ∧ (∀ n, resolve_segments (Value.num n) (segment :: rest) = none)
        ∧ (∀ s, resolve_segments (Value.str s) (segment :: rest) = none)) := by
  refine ⟨fun v => ⟨by simp [get_value_at_path], by simp [get_value_at_path]⟩,
    ?_, ?_, ?_, ?_, ?_⟩
  · intro v path h1 h2
    simp [get_value_at_path, h1, h2]
  · intro fields segment rest h
    simp [resolve_segments, h]
  · intro xs segment rest h
    simp [resolve_segments, h]
  · intro xs segment rest index hp hlen
    simp [resolve_segments, hp, List.getElem?_eq_none hlen]
  · intro segment rest
    exact ⟨rfl, fun b => rfl, fun n => rfl, fun s => rfl⟩

/-- Witness for C6 at concrete values. -/
theorem resolver_pointer_behaviour_witness :
    get_value_at_path Value.null "" = some Value.null
    ∧ get_value_at_path (Value.obj [("b", Value.null)]) "/a"
        = resolve_segments (Value.obj [("b", Value.null)])
            (split_slash (trim_start_matches_slash "/a"))
    ∧ resolve_segments (Value.obj [("b", Value.null)]) ["a"] = none
    ∧ resolve_segments (Value.arr [Value.null]) ["x"] = none
    ∧ resolve_segments (Value.arr [Value.null]) ["1"] = none
    ∧ resolve_segments Value.null ["a"] = none :=
  ⟨(resolver_pointer_behaviour.1 Value.null).1,
   resolver_pointer_behaviour.2.1 (Value.obj [("b", Value.null)]) "/a"
     (by decide) (by decide),
   resolver_pointer_behaviour.2.2.1 [("b", Value.null)] "a" [] rfl,
   resolver_pointer_behaviour.2.2.2.1 [Value.null] "x" [] rfl,
   resolver_pointer_behaviour.2.2.2.2.1 [Value.null] "1" [] 1 rfl (by decide),
   (resolver_pointer_behaviour.2.2.2.2.2 "a" []).1⟩

/-- C7 counterexample: the resolver strips ALL leading slashes, so a
path beginning with two slashes yields the segments of the fully trimmed
remainder rather than an empty first segment, and resolution succeeds
where the one-strip reading of the claim would fail. -/
theorem resolver_double_slash_counterexample :
    split_slash (trim_start_matches_slash "//a") = ["a"]
    ∧ split_slash (strip_one_leading_slash "//a") = ["", "a"]
    ∧ (["a"] : List String) ≠ ["", "a"]
    ∧ get_value_at_path (Value.obj [("a", Value.null)]) "//a" = some Value.null
    ∧ get_value_at_path_one_strip (Value.obj [("a", Value.null)]) "//a" = none :=
  ⟨rfl, rfl, by decide, rfl, rfl⟩

/-- C7 amended: segments are computed by stripping ALL leading slashes
and splitting the remainder on slash, consumed left to right; hence a
path with two leading slashes resolves exactly like the same path with
one of them removed, instead of acquiring an empty first segment. -/
theorem resolver_strips_all_leading_slashes
    (v : Value) (s : String) (h : s ≠ "") :
    get_value_at_path v ("//" ++ s) = get_value_at_path v ("/" ++ s) := by
  have hmt : (String.data "" = ([] : List Char)) := rfl
  have hsl : (String.data "/" = ['/']) := rfl
  have hdata2 : ("//" ++ s).data = '/' :: '/' :: s.data := by
    rw [String.data_append]
    rfl
  have hdata1 : ("/" ++ s).data = '/' :: s.data := by
    rw [String.data_append]
    rfl
  have h1 : ¬("//" ++ s = "" ∨ "//" ++ s = "/") := by
    rintro (hc | hc)
    · have hd := congrArg String.data hc
      rw [hdata2, hmt] at hd
      simp at hd
    · have hd := congrArg String.data hc
      rw [hdata2, hsl] at hd
      simp at hd
  have h2 : ¬("/" ++ s = "" ∨ "/" ++ s = "/") := by
    rintro (hc | hc)
    · have hd := congrArg String.data hc
      rw [hdata1, hmt] at hd
      simp at hd
    · have hd := congrArg String.data hc
      rw [hdata1, hsl] at hd
      simp at hd
      exact h (String.ext hd)
  have htrim : trim_start_matches_slash ("//" ++ s)
      = trim_start_matches_slash ("/" ++ s) := by
    unfold trim_start_matches_slash
    rw [hdata2, hdata1, trim_slashes_cons_slash]
  unfold get_value_at_path
  rw [if_neg h1, if_neg h2, htrim]

/-- Witness for C7 on a concrete object and suffix. -/
theorem resolver_strips_all_leading_slashes_witness :
    get_value_at_path (Value.obj [("a", Value.null)]) ("//" ++ "a")
      = get_value_at_path (Value.obj [("a", Value.null)]) ("/" ++ "a") :=
  resolver_strips_all_leading_slashes (Value.obj [("a", Value.null)]) "a" (by decide)

/-- C8: the suggestion generator always returns a nonempty list; every
recognized keyword yields exactly one templated hint; and any other
keyword gets the fixed four-line bundle, extended by a line echoing the
raw message exactly when the message is nonempty and shorter than 200
UTF-8 bytes, which entails the echo line appears only when the message
is nonempty and under 200 characters. -/
theorem suggestions_nonempty_and_templated :
    (∀ (error : RawFailure) (keyword : String) (iv sv : Value),
        generate_suggestions_for_error error keyword iv sv ≠ [])
    ∧ (∀ (error : RawFailure) (keyword : String) (iv sv : Value),
        keyword ∈ recognized_suggestion_keywords →
        (generate_suggestions_for_error error keyword iv sv).length = 1)
    ∧ (∀ (error : RawFailure) (keyword : String) (iv sv : Value),
        keyword ∉ recognized_suggestion_keywords →
        generate_suggestions_for_error error keyword iv sv
          = (["Validation failed for \x27" ++ keyword ++ "\x27 constraint",
              "Expected: " ++ valueToJson sv,
              "Check the schema documentation for this constraint",
              "Verify your data matches the expected format"]
             ++ (if error.message ≠ "" ∧ error.message.utf8ByteSize < 200
                 then ["Error details: " ++ error.message] else []))
        ∧ ((generate_suggestions_for_error error keyword iv sv).length = 5 →
            error.message ≠ "" ∧ error.message.length < 200)) := by
  refine ⟨fun e kw iv sv => generate_suggestions_for_error_ne_nil e kw iv sv, ?_, ?_⟩
  · intro e kw iv sv h
    fin_cases h <;> first
      | rfl
      | (simp only [generate_suggestions_for_error]; split <;> rfl)
  · intro e kw iv sv h
    simp only [recognized_suggestion_keywords, List.mem_cons,
      List.not_mem_nil, or_false, not_or] at h
    obtain ⟨h1, h2, h3, h4, h5, h6, h7, h8, h9, h10, h11, h12, h13, h14⟩ := h
    have hfb : generate_suggestions_for_error e kw iv sv
        = (["Validation failed for \x27" ++ kw ++ "\x27 constraint",
            "Expected: " ++ valueToJson sv,
            "Check the schema documentation for this constraint",
            "Verify your data matches the expected format"]
           ++ (if e.message ≠ "" ∧ e.message.utf8ByteSize < 200
               then ["Error details: " ++ e.message] else [])) := by
      unfold generate_suggestions_for_error
      split
      case h_15 =>
        dsimp only []
        split <;> simp_all
      all_goals simp_all
    refine ⟨hfb, ?_⟩
    intro hlen
    by_cases hc : e.message ≠ "" ∧ e.message.utf8ByteSize < 200
    · have hle := length_le_utf8ByteSize e.message
      exact ⟨hc.1, by omega⟩
    · rw [hfb, if_neg hc] at hlen
      simp at hlen

/-- Witness for C8 at a recognized and an unrecognized keyword. -/
theorem suggestions_nonempty_and_templated_witness :
    (generate_suggestions_for_error ⟨"", "", ""⟩ "minimum" Value.null (Value.num 3)).length = 1
    ∧ generate_suggestions_for_error ⟨"", "", "boom"⟩ "customKw" Value.null Value.null
        = (["Validation failed for \x27customKw\x27 constraint",
            "Expected: " ++ valueToJson Value.null,
            "Check the schema documentation for this constraint",
            "Verify your data matches the expected format"]
           ++ (if ("boom" : String) ≠ "" ∧ ("boom" : String).utf8ByteSize < 200
               then ["Error details: " ++ ("boom" : String)] else [])) :=
  ⟨suggestions_nonempty_and_templated.2.1 ⟨"", "", ""⟩ "minimum"
     Value.null (Value.num 3) (by decide),
   (suggestions_nonempty_and_templated.2.2 ⟨"", "", "boom"⟩ "customKw"
     Value.null Value.null (by decide)).1⟩

/-- C9: when the instance text fails to parse, the valid operation
validates the JSON null value instead of propagating a parse error, so
its result equals the compiled schema verdict on null. -/
theorem valid_unparsable_instance_null
    (compiled_schema : CompiledSchema) (parse : String → Option Value)
    (instance_json : String) (h : parse instance_json = none) :
    valid compiled_schema parse instance_json
      = compiled_schema.is_valid Value.null := by
  simp [valid, h]

/-- Witness for C9 with a parser that rejects the given text. -/
theorem valid_unparsable_instance_null_witness :
    valid constNullSchema (fun _ => none) "]["
      = CompiledSchema.is_valid constNullSchema Value.null :=
  valid_unparsable_instance_null constNullSchema (fun _ => none) "][" rfl

/-- C10: array indexing accepts any segment accepted by general unsigned
integer parsing, so the non-canonical segments "+1" and "01" resolve to
index 1 (element two) instead of yielding none, diverging from the
canonical RFC 6901 index syntax. -/
theorem resolver_accepts_noncanonical_indices :
    parse_usize "+1" = some 1
    ∧ parse_usize "01" = some 1
    ∧ (∀ x y : Value,
        get_value_at_path (Value.arr [x, y]) "/+1" = some y
        ∧ get_value_at_path (Value.arr [x, y]) "/01" = some y)
    ∧ (∀ (xs : List Value) (segment : String) (index : Nat),
        parse_usize segment = some index →
        resolve_segments (Value.arr xs) [segment] = xs.get? index) := by
  refine ⟨rfl, rfl, fun x y => ⟨rfl, rfl⟩, ?_⟩
  intro xs segment index hp
  simp only [resolve_segments, hp]
  cases hg : xs.get? index <;> simp [hg]

/-- Witness for C10: the general parsing clause applied at a concrete
index segment. -/
theorem resolver_accepts_noncanonical_indices_witness :
    resolve_segments (Value.arr [Value.null]) ["0"] = [Value.null].get? 0 :=
  resolver_accepts_noncanonical_indices.2.2.2 [Value.null] "0" 0 rfl

end ExJsonschema
